import Mathlib

/-!
Shallow embedding of `victoria_email/core/config.py`.

The module declares two marshmallow schemas (`StorageAccountSchema`,
`MailToilConfigSchema`), the corresponding domain classes
(`StorageAccount`, `MailToilConfig`), a schema instance
`CONFIG_SCHEMA = MailToilConfigSchema(unknown=EXCLUDE)`, and two accessor
methods on `MailToilConfig` that use a Python truthiness test on
`dict.get`.

Embedding choices:
- A parsed YAML/JSON document is a `Yaml` tree; Python dicts become
  association lists (`List (String × _)`) with `List.lookup` playing the
  role of `dict.get`.
- Fallible operations return `Except String _`; the error string is the
  exception message.
- `CONFIG_SCHEMA.load` becomes `loadMailToilConfig`: it reads the four
  declared fields (in declaration order) and ignores every other key,
  which is marshmallow's `unknown=EXCLUDE` policy. The nested
  `StorageAccountSchema` is instantiated without an `unknown` argument,
  so it follows marshmallow's default `unknown=RAISE` policy:
  `loadStorageAccount` rejects keys other than `account_name` and `key`.
  marshmallow collects all validation errors before raising a single
  `ValidationError`; the embedding short-circuits at the first error,
  which is equivalent for every success/failure question asked here.
- `CONFIG_SCHEMA.dump` becomes `dumpMailToilConfig`, serializing the four
  declared fields back to a `Yaml` tree.
- Python truthiness: `not dict.get(k)` is true when the key is absent
  (`None` is falsy), or when the value is an empty string; a
  `StorageAccount` instance (no `__bool__`/`__len__`) is always truthy.
-/

/-- A parsed YAML document (the generic structure `yaml.safe_load`
produces, restricted to the shapes the schema can meet). -/
inductive Yaml where
  | str : String → Yaml
  | int : Int → Yaml
  | bool : Bool → Yaml
  | null : Yaml
  | list : List Yaml → Yaml
  | map : List (String × Yaml) → Yaml

/-- Python class `StorageAccount` from config.py: a storage account name
and access key. -/
structure StorageAccount where
  account_name : String
  key : String
deriving DecidableEq

/-- Python truthiness of a `StorageAccount` instance: the class defines
neither `__bool__` nor `__len__`, so every instance is truthy. -/
def StorageAccount.pyTruthy (_ : StorageAccount) : Bool := true

/-- Python truthiness of `dict.get` on a `Dict[str, str]`:
`None` (absent key) is falsy, `""` is falsy, other strings truthy. -/
def pyTruthyOptStr : Option String → Bool
  | none => false
  | some s => !(s == "")

/-- Python truthiness of `dict.get` on a `Dict[str, StorageAccount]`:
`None` (absent key) is falsy, an instance is always truthy. -/
def pyTruthyOptSA : Option StorageAccount → Bool
  | none => false
  | some sa => sa.pyTruthy

/-- Python class `MailToilConfig` from config.py: the four config fields. -/
structure MailToilConfig where
  service_bus_connection_strings : List (String × String)
  queues : List String
  storage_accounts : List (String × StorageAccount)
  vault_dir : String
deriving DecidableEq

/-- Method `MailToilConfig.get_service_bus_connection_str`: raises `ValueError`
when `not self.service_bus_connection_strings.get(cluster)`, else returns
`self.service_bus_connection_strings[cluster]` (subscript on an absent
key would be a `KeyError`; unreachable after the truthiness guard). -/
def MailToilConfig.get_service_bus_connection_str (c : MailToilConfig)
    (cluster : String) : Except String String :=
  if pyTruthyOptStr (c.service_bus_connection_strings.lookup cluster) then
    match c.service_bus_connection_strings.lookup cluster with
    | some s => .ok s
    | none => .error ("KeyError: '" ++ cluster ++ "'")
  else
    .error ("Couldn't find service bus connection string for cluster '"
      ++ cluster ++ "'")

/-- Method `MailToilConfig.get_storage_account`: raises `ValueError` when
`not self.storage_accounts.get(cluster)`, else returns
`self.storage_accounts[cluster]`. -/
def MailToilConfig.get_storage_account (c : MailToilConfig)
    (cluster : String) : Except String StorageAccount :=
  if pyTruthyOptSA (c.storage_accounts.lookup cluster) then
    match c.storage_accounts.lookup cluster with
    | some sa => .ok sa
    | none => .error ("KeyError: '" ++ cluster ++ "'")
  else
    .error ("Couldn't find storage account for cluster '" ++ cluster ++ "'")

/-- marshmallow: a `required=True` field missing from the input raises
`ValidationError("Missing data for required field.")`. -/
def requireField (m : List (String × Yaml)) (f : String) :
    Except String Yaml :=
  match m.lookup f with
  | some v => .ok v
  | none => .error ("ValidationError: " ++ f
      ++ ": Missing data for required field.")

/-- marshmallow `fields.Str()`: accepts exactly string values. -/
def loadStr : Yaml → Except String String
  | .str s => .ok s
  | _ => .error "ValidationError: Not a valid string."

/-- Nested `StorageAccountSchema.load`: instantiated with marshmallow's default
`unknown=RAISE` policy, so any key other than `account_name`/`key` is a
validation error; both declared fields are `fields.Str(required=True)`;
the `post_load` hook builds a `StorageAccount` from the loaded data. -/
def loadStorageAccount : Yaml → Except String StorageAccount
  | .map m =>
    if m.all (fun p => p.1 == "account_name" || p.1 == "key") then
      match m.lookup "account_name", m.lookup "key" with
      | some (.str an), some (.str k) => .ok ⟨an, k⟩
      | some (.str _), some _ =>
        .error "ValidationError: key: Not a valid string."
      | some (.str _), none =>
        .error "ValidationError: key: Missing data for required field."
      | some _, _ =>
        .error "ValidationError: account_name: Not a valid string."
      | none, _ =>
        .error "ValidationError: account_name: Missing data for required field."
    else
      .error "ValidationError: Unknown field."
  | _ => .error "ValidationError: Invalid input type."

/-- marshmallow `fields.Dict(keys=fields.Str(), values=fields.Str())`
applied to each entry of a parsed mapping. -/
def loadStrDict : List (String × Yaml) →
    Except String (List (String × String))
  | [] => .ok []
  | (k, v) :: rest =>
    match loadStr v with
    | .error e => .error e
    | .ok s =>
      match loadStrDict rest with
      | .error e => .error e
      | .ok tl => .ok ((k, s) :: tl)

/-- marshmallow `fields.List(fields.Str())` applied to each element of a
parsed sequence. -/
def loadStrList : List Yaml → Except String (List String)
  | [] => .ok []
  | v :: rest =>
    match loadStr v with
    | .error e => .error e
    | .ok s =>
      match loadStrList rest with
      | .error e => .error e
      | .ok tl => .ok (s :: tl)

/-- marshmallow `fields.Dict(keys=fields.Str(),
values=fields.Nested(StorageAccountSchema))` applied to each entry of a
parsed mapping. -/
def loadSADict : List (String × Yaml) →
    Except String (List (String × StorageAccount))
  | [] => .ok []
  | (k, v) :: rest =>
    match loadStorageAccount v with
    | .error e => .error e
    | .ok sa =>
      match loadSADict rest with
      | .error e => .error e
      | .ok tl => .ok ((k, sa) :: tl)

/-- Shape check of `fields.Dict`: the input must itself be a mapping. -/
def loadStrDictY : Yaml → Except String (List (String × String))
  | .map m => loadStrDict m
  | _ => .error "ValidationError: Not a valid mapping type."

/-- Shape check of `fields.List`: marshmallow gates only on
`is_iterable_but_not_string`, so a sequence is deserialized elementwise,
and a mapping is also accepted — Python iteration over a dict yields its
keys (strings here), each deserialized by the inner `fields.Str`.
Strings (which have `strip`) and non-iterable scalars are rejected. -/
def loadStrListY : Yaml → Except String (List String)
  | .list l => loadStrList l
  | .map m => loadStrList (m.map fun p => Yaml.str p.1)
  | _ => .error "ValidationError: Not a valid list."

/-- Shape check of `fields.Dict` for the storage-accounts mapping. -/
def loadSADictY : Yaml → Except String (List (String × StorageAccount))
  | .map m => loadSADict m
  | _ => .error "ValidationError: Not a valid mapping type."

/-- Top-level `CONFIG_SCHEMA.load`, i.e. `MailToilConfigSchema(unknown=EXCLUDE)`:
the four declared fields are read in declaration order
(`service_bus_connection_strings`, `queues`, `storage_accounts`,
`vault_dir`), every other top-level key is excluded (ignored), and the
`post_load` hook builds a `MailToilConfig` from the loaded data. -/
def loadMailToilConfig : Yaml → Except String MailToilConfig
  | .map m =>
    match requireField m "service_bus_connection_strings" with
    | .error e => .error e
    | .ok sbv =>
      match loadStrDictY sbv with
      | .error e => .error e
      | .ok sb =>
        match requireField m "queues" with
        | .error e => .error e
        | .ok qv =>
          match loadStrListY qv with
          | .error e => .error e
          | .ok q =>
            match requireField m "storage_accounts" with
            | .error e => .error e
            | .ok sav =>
              match loadSADictY sav with
              | .error e => .error e
              | .ok sa =>
                match requireField m "vault_dir" with
                | .error e => .error e
                | .ok vv =>
                  match loadStr vv with
                  | .error e => .error e
                  | .ok vd => .ok ⟨sb, q, sa, vd⟩
  | _ => .error "ValidationError: Invalid input type."

/-- Serialization `StorageAccountSchema.dump`: the two declared fields. -/
def dumpStorageAccount (sa : StorageAccount) : Yaml :=
  .map [("account_name", .str sa.account_name), ("key", .str sa.key)]

/-- Serialization `CONFIG_SCHEMA.dump`: the four declared fields of a
`MailToilConfig` back to a generic document. -/
def dumpMailToilConfig (c : MailToilConfig) : Yaml :=
  .map
    [("service_bus_connection_strings",
       .map (c.service_bus_connection_strings.map fun p => (p.1, .str p.2))),
     ("queues", .list (c.queues.map Yaml.str)),
     ("storage_accounts",
       .map (c.storage_accounts.map fun p => (p.1, dumpStorageAccount p.2))),
     ("vault_dir", .str c.vault_dir)]

/-- One call to an accessor method of `MailToilConfig`. -/
inductive AccessorCall where
  | getServiceBus (cluster : String)
  | getStorageAcct (cluster : String)

/-- State-passing embedding of one accessor method call: the method body
reads `self` and never assigns to it, so the post-state is the pre-state. -/
def runCall : AccessorCall → MailToilConfig →
    Except String (String ⊕ StorageAccount) × MailToilConfig
  | .getServiceBus cl, c =>
    ((c.get_service_bus_connection_str cl).map Sum.inl, c)
  | .getStorageAcct cl, c =>
    ((c.get_storage_account cl).map Sum.inr, c)

/-- Run a sequence of accessor calls, threading the config state. -/
def runCalls : List AccessorCall → MailToilConfig → MailToilConfig
  | [], c => c
  | call :: rest, c => runCalls rest (runCall call c).2

/-- Sample config with a present cluster, an empty-string cluster and one
storage account; used to instantiate the accessor theorems. -/
def cfgW : MailToilConfig :=
  { service_bus_connection_strings :=
      [("cluster-a", "conn-a"), ("cluster-e", "")]
    queues := ["q1"]
    storage_accounts := [("cluster-a", ⟨"acct", "secret"⟩)]
    vault_dir := "/var/lib/vault" }

/-- C1: `get_service_bus_connection_str` returns the stored string
unchanged when the cluster maps to a non-empty string, and raises an
error whose message contains the cluster name exactly when the cluster is
absent or maps to the empty (falsy) string. -/
theorem get_service_bus_connection_str_spec (c : MailToilConfig)
    (cluster : String) :
    (∀ s, c.service_bus_connection_strings.lookup cluster = some s →
      s ≠ "" → c.get_service_bus_connection_str cluster = .ok s) ∧
    ((c.service_bus_connection_strings.lookup cluster = none ∨
      c.service_bus_connection_strings.lookup cluster = some "") →
      ∃ pre post, c.get_service_bus_connection_str cluster =
        .error (pre ++ cluster ++ post)) ∧
    (∀ e, c.get_service_bus_connection_str cluster = .error e →
      c.service_bus_connection_strings.lookup cluster = none ∨
      c.service_bus_connection_strings.lookup cluster = some "") := by
  refine ⟨?_, ?_, ?_⟩
  · intro s hs hne
    simp [MailToilConfig.get_service_bus_connection_str, pyTruthyOptStr,
      hs, hne]
  · rintro (h | h) <;>
      exact ⟨"Couldn't find service bus connection string for cluster '",
        "'", by
          simp [MailToilConfig.get_service_bus_connection_str,
            pyTruthyOptStr, h]⟩
  · intro e he
    cases h : c.service_bus_connection_strings.lookup cluster with
    | none => exact Or.inl rfl
    | some s =>
      by_cases hs : s = ""
      · exact Or.inr (by rw [hs])
      · exfalso
        simp [MailToilConfig.get_service_bus_connection_str,
          pyTruthyOptStr, h, hs] at he

/-- Witness for C1 at the sample config: a present non-empty cluster
succeeds, an empty-string cluster and an absent cluster both raise with
the cluster name in the message. -/
theorem get_service_bus_connection_str_spec_witness :
    cfgW.get_service_bus_connection_str "cluster-a" = .ok "conn-a" ∧
    (∃ pre post, cfgW.get_service_bus_connection_str "cluster-e" =
      .error (pre ++ "cluster-e" ++ post)) ∧
    (∃ pre post, cfgW.get_service_bus_connection_str "cluster-b" =
      .error (pre ++ "cluster-b" ++ post)) :=
  ⟨(get_service_bus_connection_str_spec cfgW "cluster-a").1 "conn-a"
      (by decide) (by decide),
   (get_service_bus_connection_str_spec cfgW "cluster-e").2.1
      (Or.inr (by decide)),
   (get_service_bus_connection_str_spec cfgW "cluster-b").2.1
      (Or.inl (by decide))⟩

/-- C2: `get_storage_account` returns the stored `StorageAccount`
unchanged when the cluster is present, and raises an error whose message
contains the cluster name exactly when the cluster is absent or maps to a
falsy value (an instance is always truthy, so only absence fires). -/
theorem get_storage_account_spec (c : MailToilConfig) (cluster : String) :
    (∀ sa, c.storage_accounts.lookup cluster = some sa →
      c.get_storage_account cluster = .ok sa) ∧
    ((c.storage_accounts.lookup cluster = none ∨
      (∃ sa, c.storage_accounts.lookup cluster = some sa ∧
        sa.pyTruthy = false)) →
      ∃ pre post, c.get_storage_account cluster =
        .error (pre ++ cluster ++ post)) ∧
    (∀ e, c.get_storage_account cluster = .error e →
      c.storage_accounts.lookup cluster = none ∨
      (∃ sa, c.storage_accounts.lookup cluster = some sa ∧
        sa.pyTruthy = false)) := by
  refine ⟨?_, ?_, ?_⟩
  · intro sa h
    simp [MailToilConfig.get_storage_account, pyTruthyOptSA, h,
      StorageAccount.pyTruthy]
  · rintro (h | ⟨sa, h, ht⟩)
    · exact ⟨"Couldn't find storage account for cluster '", "'", by
        simp [MailToilConfig.get_storage_account, pyTruthyOptSA, h]⟩
    · exact absurd ht (by simp [StorageAccount.pyTruthy])
  · intro e he
    cases h : c.storage_accounts.lookup cluster with
    | none => exact Or.inl rfl
    | some sa =>
      exfalso
      simp [MailToilConfig.get_storage_account, pyTruthyOptSA,
        StorageAccount.pyTruthy, h] at he

/-- Witness for C2 at the sample config: present cluster returns the
stored account, absent cluster raises with the name in the message. -/
theorem get_storage_account_spec_witness :
    cfgW.get_storage_account "cluster-a" = .ok ⟨"acct", "secret"⟩ ∧
    (∃ pre post, cfgW.get_storage_account "cluster-b" =
      .error (pre ++ "cluster-b" ++ post)) :=
  ⟨(get_storage_account_spec cfgW "cluster-a").1 ⟨"acct", "secret"⟩
      (by decide),
   (get_storage_account_spec cfgW "cluster-b").2.1 (Or.inl (by decide))⟩

/-- C9: no sequence of accessor calls (succeeding or raising) changes any
of the four fields of the config: the accessors are read-only. -/
theorem runCalls_preserves_config (calls : List AccessorCall)
    (c : MailToilConfig) :
    (runCalls calls c).service_bus_connection_strings =
      c.service_bus_connection_strings ∧
    (runCalls calls c).queues = c.queues ∧
    (runCalls calls c).storage_accounts = c.storage_accounts ∧
    (runCalls calls c).vault_dir = c.vault_dir := by
  induction calls generalizing c with
  | nil => exact ⟨rfl, rfl, rfl, rfl⟩
  | cons call rest ih =>
    cases call with
    | getServiceBus cl => simpa [runCalls, runCall] using ih c
    | getStorageAcct cl => simpa [runCalls, runCall] using ih c

lemma requireField_ok {m : List (String × Yaml)} {f : String} {v : Yaml} :
    requireField m f = Except.ok v ↔ m.lookup f = some v := by
  unfold requireField
  cases h : m.lookup f <;> simp

lemma loadStrDictY_ok {v : Yaml} {sb : List (String × String)}
    (h : loadStrDictY v = Except.ok sb) :
    ∃ sbm, v = Yaml.map sbm ∧ loadStrDict sbm = Except.ok sb := by
  cases v <;> simp_all [loadStrDictY]

lemma loadSADictY_ok {v : Yaml} {sa : List (String × StorageAccount)}
    (h : loadSADictY v = Except.ok sa) :
    ∃ sam, v = Yaml.map sam ∧ loadSADict sam = Except.ok sa := by
  cases v <;> simp_all [loadSADictY]

lemma loadStr_ok {v : Yaml} {s : String} (h : loadStr v = Except.ok s) :
    v = Yaml.str s := by
  cases v <;> simp_all [loadStr]

/-- Inversion of a successful `CONFIG_SCHEMA.load`: every required field
was present with the declared shape and loaded to the matching component
of the resulting config. -/
lemma load_ok_elim {m : List (String × Yaml)} {c : MailToilConfig}
    (h : loadMailToilConfig (Yaml.map m) = Except.ok c) :
    (∃ sbm, m.lookup "service_bus_connection_strings" =
        some (Yaml.map sbm) ∧
      loadStrDict sbm = Except.ok c.service_bus_connection_strings) ∧
    (∃ qv, m.lookup "queues" = some qv ∧
      loadStrListY qv = Except.ok c.queues) ∧
    (∃ sam, m.lookup "storage_accounts" = some (Yaml.map sam) ∧
      loadSADict sam = Except.ok c.storage_accounts) ∧
    m.lookup "vault_dir" = some (Yaml.str c.vault_dir) := by
  simp only [loadMailToilConfig] at h
  split at h
  · exact Except.noConfusion h
  rename_i sbv hsbv
  split at h
  · exact Except.noConfusion h
  rename_i sb hsb
  split at h
  · exact Except.noConfusion h
  rename_i qv hqv
  split at h
  · exact Except.noConfusion h
  rename_i q hq
  split at h
  · exact Except.noConfusion h
  rename_i sav hsav
  split at h
  · exact Except.noConfusion h
  rename_i sa hsa
  split at h
  · exact Except.noConfusion h
  rename_i vv hvv
  split at h
  · exact Except.noConfusion h
  rename_i vd hvd
  injection h with h
  subst h
  obtain ⟨sbm, rfl, hsbm⟩ := loadStrDictY_ok hsb
  obtain ⟨sam, rfl, hsam⟩ := loadSADictY_ok hsa
  have hv := loadStr_ok hvd
  subst hv
  exact ⟨⟨sbm, requireField_ok.mp hsbv, hsbm⟩,
    ⟨qv, requireField_ok.mp hqv, hq⟩,
    ⟨sam, requireField_ok.mp hsav, hsam⟩,
    requireField_ok.mp hvv⟩

/-- Every entry of a mapping that loads successfully under the nested
storage-account field itself loads successfully. -/
lemma loadSADict_ok_mem {sam : List (String × Yaml)}
    {l : List (String × StorageAccount)} (h : loadSADict sam = Except.ok l)
    {k : String} {v : Yaml} (hmem : (k, v) ∈ sam) :
    ∃ sa, loadStorageAccount v = Except.ok sa := by
  induction sam generalizing l with
  | nil => cases hmem
  | cons p rest ih =>
    obtain ⟨pk, pv⟩ := p
    simp only [loadSADict] at h
    split at h
    · exact Except.noConfusion h
    rename_i sa hsa
    split at h
    · exact Except.noConfusion h
    rename_i tl htl
    rcases List.mem_cons.mp hmem with heq | hmem2
    · cases heq
      exact ⟨sa, hsa⟩
    · exact ih htl hmem2

/-- Every storage account in the output of a successful nested load came
from some entry of the input mapping that loaded to it. -/
lemma loadSADict_mem_ok {sam : List (String × Yaml)}
    {l : List (String × StorageAccount)} (h : loadSADict sam = Except.ok l)
    {k : String} {sa : StorageAccount} (hmem : (k, sa) ∈ l) :
    ∃ v, (k, v) ∈ sam ∧ loadStorageAccount v = Except.ok sa := by
  induction sam generalizing l with
  | nil =>
    simp only [loadSADict] at h
    injection h with h
    subst h
    cases hmem
  | cons p rest ih =>
    obtain ⟨pk, pv⟩ := p
    simp only [loadSADict] at h
    split at h
    · exact Except.noConfusion h
    rename_i sa2 hsa2
    split at h
    · exact Except.noConfusion h
    rename_i tl htl
    injection h with h
    subst h
    rcases List.mem_cons.mp hmem with heq | hmem2
    · cases heq
      exact ⟨pv, List.mem_cons_self _ _, hsa2⟩
    · obtain ⟨v, hv, hload⟩ := ih htl hmem2
      exact ⟨v, List.mem_cons_of_mem _ hv, hload⟩

/-- Inversion of a successful `StorageAccountSchema.load`: the input was
a mapping, every key was a declared field (`unknown=RAISE` passed), and
both required string fields were present with the resulting values. -/
lemma loadStorageAccount_ok_elim {v : Yaml} {sa : StorageAccount}
    (h : loadStorageAccount v = Except.ok sa) :
    ∃ em, v = Yaml.map em ∧
      (∀ p ∈ em, p.1 = "account_name" ∨ p.1 = "key") ∧
      em.lookup "account_name" = some (Yaml.str sa.account_name) ∧
      em.lookup "key" = some (Yaml.str sa.key) := by
  cases v
  case map em =>
    refine ⟨em, rfl, ?_⟩
    simp only [loadStorageAccount] at h
    split at h
    · rename_i hall
      split at h
      case _ an k han hk =>
        injection h with h
        subst h
        refine ⟨?_, han, hk⟩
        intro p hp
        have := List.all_eq_true.mp hall p hp
        simpa using this
      all_goals exact Except.noConfusion h
    · exact Except.noConfusion h
  all_goals exact Except.noConfusion h

/-- Top-level entries of a document whose `queues` field is a mapping —
the wrong shape per the declared `list<string>` contract. -/
def mapQueuesEntries : List (String × Yaml) :=
  [("service_bus_connection_strings",
     Yaml.map [("cluster-a", Yaml.str "sb://x")]),
   ("queues", Yaml.map [("a", Yaml.str "b")]),
   ("storage_accounts", Yaml.map []),
   ("vault_dir", Yaml.str "/v")]

/-- Counterexample to C3 as frozen: a document whose `queues` field is a
mapping (not a sequence of strings) nevertheless loads successfully —
marshmallow's `fields.List` accepts any non-string iterable and iterates
a dict's keys, so the load yields `queues = ["a"]` instead of a
validation error. -/
theorem load_mapping_queues_succeeds_counterexample :
    mapQueuesEntries.lookup "queues" =
      some (Yaml.map [("a", Yaml.str "b")]) ∧
    loadMailToilConfig (Yaml.map mapQueuesEntries) =
      Except.ok ⟨[("cluster-a", "sb://x")], ["a"], [], "/v"⟩ :=
  ⟨rfl, rfl⟩

/-- C3 (amended): if any of the four required top-level fields is
missing, or is present with a value its declared marshmallow field
rejects, the load fails with a validation error and no config object is
produced. (The original wrong-shape reading fails on the code:
`fields.List` accepts a mapping-valued `queues`, see the
counterexample.) -/
theorem load_missing_top_field_fails (m : List (String × Yaml))
    (h :
      (m.lookup "service_bus_connection_strings" = none ∨
        ∃ v e, m.lookup "service_bus_connection_strings" = some v ∧
          loadStrDictY v = Except.error e) ∨
      (m.lookup "queues" = none ∨
        ∃ v e, m.lookup "queues" = some v ∧
          loadStrListY v = Except.error e) ∨
      (m.lookup "storage_accounts" = none ∨
        ∃ v e, m.lookup "storage_accounts" = some v ∧
          loadSADictY v = Except.error e) ∨
      (m.lookup "vault_dir" = none ∨
        ∃ v e, m.lookup "vault_dir" = some v ∧
          loadStr v = Except.error e)) :
    ∃ e, loadMailToilConfig (Yaml.map m) = Except.error e := by
  cases hl : loadMailToilConfig (Yaml.map m) with
  | error e => exact ⟨e, rfl⟩
  | ok c =>
    exfalso
    obtain ⟨⟨sbm, hsb, hsbl⟩, ⟨qv2, hq, hql⟩, ⟨sam, hsa, hsal⟩, hv⟩ :=
      load_ok_elim hl
    rcases h with (h | ⟨v, e, hv2, he⟩) | (h | ⟨v, e, hv2, he⟩) |
      (h | ⟨v, e, hv2, he⟩) | (h | ⟨v, e, hv2, he⟩) <;>
      simp_all [loadStrDictY, loadStrListY, loadSADictY, loadStr]

/-- Witness for C3: a document missing `queues` fails to load. -/
theorem load_missing_top_field_fails_witness :
    ∃ e, loadMailToilConfig (Yaml.map
      [("service_bus_connection_strings", Yaml.map []),
       ("storage_accounts", Yaml.map []),
       ("vault_dir", Yaml.str "/v")]) = Except.error e :=
  load_missing_top_field_fails _ (Or.inr (Or.inl (Or.inl rfl)))

/-- C4: a storage-account entry missing `account_name` or `key` makes the
whole load fail with a validation error. -/
theorem load_missing_storage_subfield_fails (m sam em : List (String × Yaml))
    (k : String)
    (hsa : m.lookup "storage_accounts" = some (Yaml.map sam))
    (hmem : (k, Yaml.map em) ∈ sam)
    (hmiss : em.lookup "account_name" = none ∨ em.lookup "key" = none) :
    ∃ e, loadMailToilConfig (Yaml.map m) = Except.error e := by
  cases hl : loadMailToilConfig (Yaml.map m) with
  | error e => exact ⟨e, rfl⟩
  | ok c =>
    exfalso
    obtain ⟨_, _, ⟨sam2, hsa2, hsal⟩, _⟩ := load_ok_elim hl
    rw [hsa] at hsa2
    injection hsa2 with hsa2
    injection hsa2 with hsa2
    subst hsa2
    obtain ⟨sa, hload⟩ := loadSADict_ok_mem hsal hmem
    obtain ⟨em2, hem2, _, han, hk⟩ := loadStorageAccount_ok_elim hload
    injection hem2 with hem2
    subst hem2
    rcases hmiss with h | h <;> simp_all

/-- Witness for C4: an entry missing `key` makes the load fail. -/
theorem load_missing_storage_subfield_fails_witness :
    ∃ e, loadMailToilConfig (Yaml.map
      [("service_bus_connection_strings", Yaml.map []),
       ("queues", Yaml.list []),
       ("storage_accounts", Yaml.map
         [("cluster-a", Yaml.map [("account_name", Yaml.str "acct")])]),
       ("vault_dir", Yaml.str "/v")]) = Except.error e :=
  load_missing_storage_subfield_fails _
    [("cluster-a", Yaml.map [("account_name", Yaml.str "acct")])]
    [("account_name", Yaml.str "acct")] "cluster-a" rfl
    (List.mem_singleton.mpr rfl) (Or.inr rfl)

/-- C10: a storage-account entry containing any key other than
`account_name`/`key` makes the whole load fail: the nested schema uses
marshmallow's default `unknown=RAISE` policy, unlike the top level. -/
theorem load_unknown_storage_key_fails (m sam em : List (String × Yaml))
    (k k2 : String) (v2 : Yaml)
    (hsa : m.lookup "storage_accounts" = some (Yaml.map sam))
    (hmem : (k, Yaml.map em) ∈ sam)
    (hkmem : (k2, v2) ∈ em)
    (h1 : k2 ≠ "account_name") (h2 : k2 ≠ "key") :
    ∃ e, loadMailToilConfig (Yaml.map m) = Except.error e := by
  cases hl : loadMailToilConfig (Yaml.map m) with
  | error e => exact ⟨e, rfl⟩
  | ok c =>
    exfalso
    obtain ⟨_, _, ⟨sam2, hsa2, hsal⟩, _⟩ := load_ok_elim hl
    rw [hsa] at hsa2
    injection hsa2 with hsa2
    injection hsa2 with hsa2
    subst hsa2
    obtain ⟨sa, hload⟩ := loadSADict_ok_mem hsal hmem
    obtain ⟨em2, hem2, hknown, _, _⟩ := loadStorageAccount_ok_elim hload
    injection hem2 with hem2
    subst hem2
    rcases hknown _ hkmem with h | h
    · exact h1 h
    · exact h2 h

/-- Witness for C10: an entry with an extra `endpoint` key fails. -/
theorem load_unknown_storage_key_fails_witness :
    ∃ e, loadMailToilConfig (Yaml.map
      [("service_bus_connection_strings", Yaml.map []),
       ("queues", Yaml.list []),
       ("storage_accounts", Yaml.map
         [("cluster-a", Yaml.map
           [("account_name", Yaml.str "acct"),
            ("key", Yaml.str "k"),
            ("endpoint", Yaml.str "https")])]),
       ("vault_dir", Yaml.str "/v")]) = Except.error e :=
  load_unknown_storage_key_fails _
    [("cluster-a", Yaml.map
      [("account_name", Yaml.str "acct"), ("key", Yaml.str "k"),
       ("endpoint", Yaml.str "https")])]
    [("account_name", Yaml.str "acct"), ("key", Yaml.str "k"),
     ("endpoint", Yaml.str "https")]
    "cluster-a" "endpoint" (Yaml.str "https") rfl
    (List.mem_singleton.mpr rfl)
    (by simp) (by decide) (by decide)

lemma lookup_middle {α : Type} (l1 l2 : List (String × α)) (k f : String)
    (v : α) (h : k ≠ f) :
    (l1 ++ (k, v) :: l2).lookup f = (l1 ++ l2).lookup f := by
  induction l1 with
  | nil =>
    simp only [List.nil_append, List.lookup]
    rw [beq_eq_false_iff_ne.mpr (Ne.symm h)]
  | cons p rest ih =>
    obtain ⟨pk, pv⟩ := p
    simp only [List.cons_append, List.lookup]
    cases f == pk <;> simp [ih]

/-- C5: inserting an entry with a key other than the four declared fields
anywhere in the top-level mapping leaves the load result unchanged: the
top-level schema is instantiated with `unknown=EXCLUDE`. -/
theorem load_ignores_unknown_top_key (pre post : List (String × Yaml))
    (k : String) (v : Yaml)
    (h1 : k ≠ "service_bus_connection_strings") (h2 : k ≠ "queues")
    (h3 : k ≠ "storage_accounts") (h4 : k ≠ "vault_dir") :
    loadMailToilConfig (Yaml.map (pre ++ (k, v) :: post)) =
      loadMailToilConfig (Yaml.map (pre ++ post)) := by
  have e1 := lookup_middle pre post k "service_bus_connection_strings" v h1
  have e2 := lookup_middle pre post k "queues" v h2
  have e3 := lookup_middle pre post k "storage_accounts" v h3
  have e4 := lookup_middle pre post k "vault_dir" v h4
  simp only [loadMailToilConfig, requireField, e1, e2, e3, e4]

/-- Sample document of §6 as the parsed top-level entries. -/
def sampleEntries : List (String × Yaml) :=
  [("service_bus_connection_strings",
     Yaml.map [("cluster-a", Yaml.str "Endpoint=sb://...")]),
   ("queues",
     Yaml.list [Yaml.str "deadletter-queue-1",
                Yaml.str "deadletter-queue-2"]),
   ("storage_accounts",
     Yaml.map [("cluster-a", Yaml.map
       [("account_name", Yaml.str "mystorageacct"),
        ("key", Yaml.str "base64keymaterial")])]),
   ("vault_dir", Yaml.str "/var/lib/vault")]

/-- Sample document of §6. -/
def sampleDoc : Yaml := Yaml.map sampleEntries

/-- The config the §6 sample document denotes. -/
def sampleConfig : MailToilConfig :=
  { service_bus_connection_strings :=
      [("cluster-a", "Endpoint=sb://...")]
    queues := ["deadletter-queue-1", "deadletter-queue-2"]
    storage_accounts :=
      [("cluster-a", ⟨"mystorageacct", "base64keymaterial"⟩)]
    vault_dir := "/var/lib/vault" }

/-- Witness for C5: an `extra_key` entry added to the §6 sample document
leaves the load result unchanged. -/
theorem load_ignores_unknown_top_key_witness :
    loadMailToilConfig
        (Yaml.map ([] ++ ("extra_key", Yaml.str "x") :: sampleEntries)) =
      loadMailToilConfig (Yaml.map ([] ++ sampleEntries)) :=
  load_ignores_unknown_top_key [] sampleEntries "extra_key"
    (Yaml.str "x") (by decide) (by decide) (by decide) (by decide)

/-- C6: a document whose four required fields are present and load under
their declared field types yields exactly the config built from the
loaded values; in particular the §6 sample loads to `sampleConfig`, whose
accessors return the supplied values, while `cluster-b` fails. -/
theorem load_wellformed_exact :
    (∀ (m : List (String × Yaml)) (sbv qv sav vv : Yaml)
        (sb : List (String × String)) (q : List String)
        (sa : List (String × StorageAccount)) (vd : String),
      m.lookup "service_bus_connection_strings" = some sbv →
      loadStrDictY sbv = Except.ok sb →
      m.lookup "queues" = some qv →
      loadStrListY qv = Except.ok q →
      m.lookup "storage_accounts" = some sav →
      loadSADictY sav = Except.ok sa →
      m.lookup "vault_dir" = some vv →
      loadStr vv = Except.ok vd →
      loadMailToilConfig (Yaml.map m) = Except.ok ⟨sb, q, sa, vd⟩) ∧
    loadMailToilConfig sampleDoc = Except.ok sampleConfig ∧
    sampleConfig.get_service_bus_connection_str "cluster-a" =
      Except.ok "Endpoint=sb://..." ∧
    (∃ sa, sampleConfig.get_storage_account "cluster-a" = Except.ok sa ∧
      sa.account_name = "mystorageacct") ∧
    (∃ e, sampleConfig.get_service_bus_connection_str "cluster-b" =
      Except.error e) := by
  refine ⟨?_, rfl, rfl,
    ⟨⟨"mystorageacct", "base64keymaterial"⟩, rfl, rfl⟩, ⟨_, rfl⟩⟩
  intro m sbv qv sav vv sb q sa vd h1 h2 h3 h4 h5 h6 h7 h8
  simp [loadMailToilConfig, requireField, h1, h2, h3, h4, h5, h6, h7, h8]

/-- Witness for C6: the general clause applied to the §6 sample document
reproduces the sample config. -/
theorem load_wellformed_exact_witness :
    loadMailToilConfig (Yaml.map sampleEntries) =
      Except.ok ⟨[("cluster-a", "Endpoint=sb://...")],
        ["deadletter-queue-1", "deadletter-queue-2"],
        [("cluster-a", ⟨"mystorageacct", "base64keymaterial"⟩)],
        "/var/lib/vault"⟩ :=
  load_wellformed_exact.1 sampleEntries _ _ _ _ _ _ _ _
    rfl rfl rfl rfl rfl rfl rfl rfl

lemma loadStrDict_dump (l : List (String × String)) :
    loadStrDict (l.map fun p => (p.1, Yaml.str p.2)) = Except.ok l := by
  induction l with
  | nil => rfl
  | cons p rest ih =>
    obtain ⟨k, s⟩ := p
    simp [loadStrDict, loadStr, ih]

lemma loadStrList_dump (l : List String) :
    loadStrList (l.map Yaml.str) = Except.ok l := by
  induction l with
  | nil => rfl
  | cons s rest ih => simp [loadStrList, loadStr, ih]

lemma loadStorageAccount_dump (sa : StorageAccount) :
    loadStorageAccount (dumpStorageAccount sa) = Except.ok sa := by
  obtain ⟨an, k⟩ := sa
  rfl

lemma loadSADict_dump (l : List (String × StorageAccount)) :
    loadSADict (l.map fun p => (p.1, dumpStorageAccount p.2)) =
      Except.ok l := by
  induction l with
  | nil => rfl
  | cons p rest ih =>
    obtain ⟨k, sa⟩ := p
    simp [loadSADict, loadStorageAccount_dump, ih]

/-- C7: serializing any in-memory config through the schema and loading
the serialized document back yields the original config. -/
theorem load_dump_roundtrip (c : MailToilConfig) :
    loadMailToilConfig (dumpMailToilConfig c) = Except.ok c := by
  obtain ⟨sb, q, sa, vd⟩ := c
  simp [dumpMailToilConfig, loadMailToilConfig, requireField, List.lookup,
    loadStrDictY, loadStrListY, loadSADictY, loadStr, loadStrDict_dump,
    loadStrList_dump, loadSADict_dump]

/-- Top-level entries of a document whose storage-account entry carries
empty `account_name` and `key` strings. -/
def emptyStrEntries : List (String × Yaml) :=
  [("service_bus_connection_strings",
     Yaml.map [("cluster-a", Yaml.str "sb://x")]),
   ("queues", Yaml.list []),
   ("storage_accounts", Yaml.map [("cluster-a", Yaml.map
     [("account_name", Yaml.str ""), ("key", Yaml.str "")])]),
   ("vault_dir", Yaml.str "/v")]

/-- Counterexample to C8: the schema places no non-emptiness constraint
on `account_name`/`key`; a document with empty strings for both loads
successfully, so a successfully loaded config can contain a
`StorageAccount` whose `account_name` and `key` are empty. -/
theorem loaded_storage_account_empty_counterexample :
    loadMailToilConfig (Yaml.map emptyStrEntries) =
      Except.ok ⟨[("cluster-a", "sb://x")], [],
        [("cluster-a", ⟨"", ""⟩)], "/v"⟩ ∧
    (StorageAccount.mk "" "").account_name = "" ∧
    (StorageAccount.mk "" "").key = "" :=
  ⟨rfl, rfl, rfl⟩

/-- C8 (amended): every `StorageAccount` in a successfully loaded config
carries exactly the string values the document supplied for its entry —
both fields must be present and of string type, but may be empty. -/
theorem loaded_storage_account_fields_from_doc
    (m : List (String × Yaml)) (c : MailToilConfig)
    (h : loadMailToilConfig (Yaml.map m) = Except.ok c)
    (k : String) (sa : StorageAccount)
    (hmem : (k, sa) ∈ c.storage_accounts) :
    ∃ sam em, m.lookup "storage_accounts" = some (Yaml.map sam) ∧
      (k, Yaml.map em) ∈ sam ∧
      em.lookup "account_name" = some (Yaml.str sa.account_name) ∧
      em.lookup "key" = some (Yaml.str sa.key) := by
  obtain ⟨_, _, ⟨sam, hsa, hsal⟩, _⟩ := load_ok_elim h
  obtain ⟨v, hv, hload⟩ := loadSADict_mem_ok hsal hmem
  obtain ⟨em, rfl, _, han, hk⟩ := loadStorageAccount_ok_elim hload
  exact ⟨sam, em, hsa, hv, han, hk⟩

/-- Witness for the amended C8 at the empty-string document: the loaded
(empty) field values are exactly the document's. -/
theorem loaded_storage_account_fields_from_doc_witness :
    ∃ sam em, emptyStrEntries.lookup "storage_accounts" =
        some (Yaml.map sam) ∧
      ("cluster-a", Yaml.map em) ∈ sam ∧
      em.lookup "account_name" =
        some (Yaml.str (StorageAccount.mk "" "").account_name) ∧
      em.lookup "key" = some (Yaml.str (StorageAccount.mk "" "").key) :=
  loaded_storage_account_fields_from_doc emptyStrEntries
    ⟨[("cluster-a", "sb://x")], [], [("cluster-a", ⟨"", ""⟩)], "/v"⟩
    rfl "cluster-a" ⟨"", ""⟩ (List.mem_singleton.mpr rfl)
